import Mathlib

/-!
Verification of the focus/lock-mode ("学霸模式") controller of the
Learning-assistant application (`src/main.py`).

The embedding follows the Python source:

* `Task` mirrors the `Task` record (fields relevant to the controller are
  kept with their source names; timestamps are modelled as `Int` seconds,
  the fractional-minute arithmetic of the source as exact `ℚ` arithmetic).
* `StudyHelper` mirrors the repository object: the in-memory task list plus
  the contents of the persisted `tasks.json` (`savedTasks`), with
  `_save_tasks` copying the former into the latter.
* `GUI` mirrors the mutable state of `StudyHelperGUI` that the controller
  touches; Tk calls are reflected as field updates (for example
  `root.geometry()` is the `geometry` field, and entering full-screen makes
  it the distinguished `fullscreenGeometry` value the window manager would
  report).  A password submission reaches `check_password` through the
  unlock dialog's entry/button widgets, so `submitUnlock` delivers it only
  while those widgets exist and are enabled.
-/

namespace StudyApp

/-- Mirrors the persisted `Task` record of `src/main.py`. -/
structure Task where
  id : String
  subject : String
  content : String
  deadline : String
  priority : Nat
  completed : Bool
  created_at : Int
  completed_at : Option Int
  study_mode : String
  time_limit : Nat
  start_time : Option Int
  close_attempts : Nat
deriving Repr, DecidableEq

/-- Outcome of `Task.complete`: the Python method returns `True` for `ok`
and `False` otherwise, reporting the remaining minutes in the
`时间未到` message box for the `tooEarly` case. -/
inductive CompleteResult where
  | ok
  | notStarted
  | tooEarly (remainingMinutes : ℚ)
deriving Repr, DecidableEq

/-- The unconditional tail of `Task.complete`
(`if not self.completed: self.completed = True; self.completed_at = ...`). -/
def Task.markDone (t : Task) (now : Int) : Task :=
  if t.completed = false then { t with completed := true, completed_at := some now } else t

/-- `Task.complete` (src/main.py lines 58-73): a study-mode task with a
positive time limit is refused unless started and unless the elapsed
minutes `(now - start_time) / 60` reach `time_limit`. -/
def Task.complete (t : Task) (now : Int) : Task × CompleteResult :=
  if t.study_mode = "study_mode" ∧ 0 < t.time_limit then
    match t.start_time with
    | none => (t, .notStarted)
    | some st =>
      if ((now - st : Int) : ℚ) / 60 < (t.time_limit : ℚ) then
        (t, .tooEarly ((t.time_limit : ℚ) - ((now - st : Int) : ℚ) / 60))
      else
        (t.markDone now, .ok)
  else
    (t.markDone now, .ok)

/-- `Task.start_study_mode` (lines 53-56). -/
def Task.start_study_mode (t : Task) (now : Int) : Task :=
  if t.study_mode = "study_mode" ∧ t.start_time = none then
    { t with start_time := some now }
  else t

/-- `Task.record_close_attempt` (lines 75-78): increment and return the
new count. -/
def Task.record_close_attempt (t : Task) : Task × Nat :=
  ({ t with close_attempts := t.close_attempts + 1 }, t.close_attempts + 1)

/-- The repository: in-memory `tasks` plus the persisted contents of
`tasks.json`. -/
structure StudyHelper where
  tasks : List Task
  savedTasks : List Task
deriving Repr, DecidableEq

/-- `StudyHelper._save_tasks`. -/
def StudyHelper.save_tasks (h : StudyHelper) : StudyHelper :=
  { h with savedTasks := h.tasks }

/-- The loop of `StudyHelper.start_study_mode_task`: start the first task
matching the id that is a not-yet-started study-mode task. -/
def startFirst (tasks : List Task) (tid : String) (now : Int) : List Task × Bool :=
  match tasks with
  | [] => ([], false)
  | t :: rest =>
    if t.id = tid ∧ t.study_mode = "study_mode" ∧ t.start_time = none then
      (t.start_study_mode now :: rest, true)
    else
      (t :: (startFirst rest tid now).1, (startFirst rest tid now).2)

/-- `StudyHelper.start_study_mode_task` (lines 210-217). -/
def StudyHelper.start_study_mode_task (h : StudyHelper) (tid : String) (now : Int) :
    StudyHelper × Bool :=
  if (startFirst h.tasks tid now).2 then
    (({ tasks := (startFirst h.tasks tid now).1,
        savedTasks := (startFirst h.tasks tid now).1 } : StudyHelper), true)
  else (h, false)

/-- The loop of `StudyHelper.complete_task`: `complete` the first task with
the given id, returning `none` when no task matches. -/
def completeFirst (tasks : List Task) (tid : String) (now : Int) :
    List Task × Option CompleteResult :=
  match tasks with
  | [] => ([], none)
  | t :: rest =>
    if t.id = tid then
      ((t.complete now).1 :: rest, some (t.complete now).2)
    else
      (t :: (completeFirst rest tid now).1, (completeFirst rest tid now).2)

/-- `StudyHelper.complete_task` (lines 219-226): saves and returns `True`
only when the task's own `complete` succeeded. -/
def StudyHelper.complete_task (h : StudyHelper) (tid : String) (now : Int) :
    StudyHelper × Bool × Option CompleteResult :=
  match completeFirst h.tasks tid now with
  | (ts, some r) =>
    if r = .ok then (({ tasks := ts, savedTasks := ts } : StudyHelper), true, some r)
    else ({ h with tasks := ts }, false, some r)
  | (_, none) => (h, false, none)

/-- The loop of `StudyHelper.record_close_attempt`: increment the first
task with the given id, returning the new count. -/
def recordFirst (tasks : List Task) (tid : String) : List Task × Option Nat :=
  match tasks with
  | [] => ([], none)
  | t :: rest =>
    if t.id = tid then
      (t.record_close_attempt.1 :: rest, some t.record_close_attempt.2)
    else
      (t :: (recordFirst rest tid).1, (recordFirst rest tid).2)

/-- `StudyHelper.record_close_attempt` (lines 228-235): saves and returns
the new count, or `0` when no task matches. -/
def StudyHelper.record_close_attempt (h : StudyHelper) (tid : String) :
    StudyHelper × Nat :=
  match recordFirst h.tasks tid with
  | (ts, some n) => (({ tasks := ts, savedTasks := ts } : StudyHelper), n)
  | (_, none) => (h, 0)

/-- `StudyHelper.add_task` (lines 204-208); the freshly constructed task is
passed in already built. -/
def StudyHelper.add_task (h : StudyHelper) (t : Task) : StudyHelper :=
  ({ tasks := h.tasks ++ [t], savedTasks := h.tasks ++ [t] } : StudyHelper)

/-- `StudyHelper.delete_task` (lines 244-250). -/
def StudyHelper.delete_task (h : StudyHelper) (tid : String) : StudyHelper × Bool :=
  if (h.tasks.filter (fun t => t.id ≠ tid)).length < h.tasks.length then
    (({ tasks := h.tasks.filter (fun t => t.id ≠ tid),
        savedTasks := h.tasks.filter (fun t => t.id ≠ tid) } : StudyHelper), true)
  else (h, false)

/-- `StudyHelper.get_pending_tasks` (lines 238-239). -/
def StudyHelper.get_pending_tasks (h : StudyHelper) : List Task :=
  h.tasks.filter (fun t => t.completed = false)

/-- The `next((t for t in tasks if t.id == tid), None)` lookup used by the
GUI. -/
def findTask (tasks : List Task) (tid : String) : Option Task :=
  match tasks with
  | [] => none
  | t :: rest => if t.id = tid then some t else findTask rest tid

/-- The geometry string `root.geometry()` reports while the window is in
full-screen mode (the screen-sized geometry the window manager imposes,
distinct from the app's windowed default). -/
def fullscreenGeometry : String := "1920x1080+0+0"

/-- The mutable `StudyHelperGUI` state the focus/lock controller touches.
`geometry` is what `root.geometry()` currently reports; `topmost` is the
`-topmost` attribute; `unlock_dialog_open` is whether the unlock dialog
exists (`winfo_exists`); `dialog_inputs_enabled` is the `state` of its
entry/button widgets; `cooldown_pending` records a scheduled
`after(5000, reset_unlock_dialog)` callback; `destroyed` is whether
`root.destroy()` ran. -/
structure GUI where
  helper : StudyHelper
  current_mode : String
  running_study_task_id : Option String
  original_geometry : String
  geometry : String
  is_fullscreen : Bool
  topmost : Bool
  lock_label : String
  study_mode_status : String
  countdown_label : Bool
  unlock_password : String
  unlock_dialog_open : Bool
  dialog_inputs_enabled : Bool
  wrong_attempts : Nat
  cooldown_pending : Bool
  destroyed : Bool
deriving Repr, DecidableEq

/-- `StudyHelperGUI.show_unlock_dialog` (lines 509-543): a no-op when the
dialog already exists; otherwise a fresh dialog with enabled widgets and
`wrong_attempts = 0`. -/
def GUI.show_unlock_dialog (g : GUI) : GUI :=
  if g.unlock_dialog_open then g
  else { g with unlock_dialog_open := true, wrong_attempts := 0,
                dialog_inputs_enabled := true }

/-- `StudyHelperGUI.enter_fullscreen` (lines 486-495): capture the current
geometry, force full-screen and topmost, set the lock label and show the
unlock dialog. -/
def GUI.enter_fullscreen (g : GUI) : GUI :=
  GUI.show_unlock_dialog
    { g with original_geometry := g.geometry,
             geometry := fullscreenGeometry,
             is_fullscreen := true,
             topmost := true,
             lock_label := "⚠️ 强制全屏模式：完成任务或输入密码才能退出" }

/-- `StudyHelperGUI.exit_fullscreen` (lines 497-507): clear the
full-screen/topmost attributes, restore the captured geometry and destroy
the unlock dialog. -/
def GUI.exit_fullscreen (g : GUI) : GUI :=
  { g with is_fullscreen := false,
           topmost := false,
           geometry := g.original_geometry,
           unlock_dialog_open := false }

/-- Result of a password submission as surfaced to the user. -/
inductive UnlockResult where
  | accepted
  | rejected (remainingTries : Nat)
  | lockedOut (cooldownMs : Nat)
  | refused
deriving Repr, DecidableEq

/-- `StudyHelperGUI.check_password` (lines 545-566) with the entered
secret as argument: a correct secret exits full-screen; a wrong one
increments `wrong_attempts`, and the third wrong one disables the dialog
widgets and schedules `reset_unlock_dialog` after 5000 ms. -/
def GUI.check_password (g : GUI) (entered : String) : GUI × UnlockResult :=
  if entered = g.unlock_password then
    (g.exit_fullscreen, .accepted)
  else if 0 < 3 - (g.wrong_attempts + 1) then
    ({ g with wrong_attempts := g.wrong_attempts + 1 },
     .rejected (3 - (g.wrong_attempts + 1)))
  else
    ({ g with wrong_attempts := g.wrong_attempts + 1,
              dialog_inputs_enabled := false,
              cooldown_pending := true }, .lockedOut 5000)

/-- The widget channel of the unlock dialog: the user types the secret
into the entry and clicks the unlock button (lines 532-537).  A `ttk`
entry and button in `state="disabled"` neither accept input nor invoke
their command, so this channel delivers nothing while the cool-down has
disabled the widgets.  The dialog's Return binding is a second,
independent trigger that this gating does NOT cover — see
`GUI.pressReturn`. -/
def GUI.submitUnlock (g : GUI) (entered : String) : GUI × UnlockResult :=
  if g.unlock_dialog_open ∧ g.dialog_inputs_enabled then
    g.check_password entered
  else (g, .refused)

/-- The Return-key channel (line 543): the binding sits on the dialog
Toplevel itself, so while the dialog exists a Return press invokes
`check_password` on the current content of `password_var` even when the
entry/button widgets are disabled — the cool-down (lines 561-564)
disables only those child widgets, and since the disabled entry cannot
be edited and the lock-out branch never clears `password_var`, during
the cool-down `entered` is necessarily the stale secret of the third
wrong attempt. -/
def GUI.pressReturn (g : GUI) (entered : String) : GUI × UnlockResult :=
  if g.unlock_dialog_open then g.check_password entered
  else (g, .refused)

/-- `StudyHelperGUI.reset_unlock_dialog` (lines 568-584), the cool-down
expiry callback: if the dialog still exists, clear the counter and
re-enable its widgets. -/
def GUI.reset_unlock_dialog (g : GUI) : GUI :=
  if g.unlock_dialog_open then
    { g with wrong_attempts := 0,
             dialog_inputs_enabled := true,
             cooldown_pending := false }
  else g

/-- User-visible outcome of `handle_close`. -/
inductive CloseOutcome where
  | vetoNotice
  | vetoWarning (attempts : Nat)
  | quitPrompt (closed : Bool)
deriving Repr, DecidableEq

/-- The `askyesno`/`destroy` tail of `handle_close`; `confirmQuit` is the
user's answer to the confirmation dialog. -/
def GUI.quitFlow (g : GUI) (confirmQuit : Bool) : GUI × CloseOutcome :=
  if confirmQuit then ({ g with destroyed := true }, .quitPrompt true)
  else (g, .quitPrompt false)

/-- `StudyHelperGUI.handle_close` (lines 465-484): while a study-mode task
is running, record the close attempt; at most one attempt shows the first
notice, more show the escalation warning, and three or more attempts force
full-screen.  The close request is vetoed in all these cases. -/
def GUI.handle_close (g : GUI) (confirmQuit : Bool) : GUI × CloseOutcome :=
  match g.running_study_task_id with
  | some tid =>
    if g.current_mode = "study_mode" then
      if (g.helper.record_close_attempt tid).2 ≤ 1 then
        ({ g with helper := (g.helper.record_close_attempt tid).1 }, .vetoNotice)
      else if 3 ≤ (g.helper.record_close_attempt tid).2 then
        (GUI.enter_fullscreen { g with helper := (g.helper.record_close_attempt tid).1 },
         .vetoWarning (g.helper.record_close_attempt tid).2)
      else
        ({ g with helper := (g.helper.record_close_attempt tid).1 },
         .vetoWarning (g.helper.record_close_attempt tid).2)
    else g.quitFlow confirmQuit
  | none => g.quitFlow confirmQuit

/-- The countdown text of `update_countdown` (lines 445-462); Python's
`timedelta.seconds` is the seconds-in-day part of the remaining duration. -/
def countdownText (subject : String) (remainingSecs : Int) : String :=
  let s := (remainingSecs % 86400).toNat
  "学霸任务：" ++ subject ++ " - 剩余时间：" ++ toString (s / 60) ++ "分" ++
    toString (s % 60) ++ "秒"

/-- One `update_countdown` tick: a no-op once the mode or the running task
changed; otherwise refresh the status label. -/
def GUI.countdownTick (g : GUI) (task : Task) (endTime now : Int) : GUI :=
  if g.current_mode ≠ "study_mode" ∨ g.running_study_task_id ≠ some task.id then g
  else if now < endTime then
    { g with study_mode_status := countdownText task.subject (endTime - now) }
  else
    { g with study_mode_status := "✅ 学霸任务：" ++ task.subject ++ " - 时间已达标，可标记完成" }

/-- `StudyHelperGUI.start_countdown` (lines 436-463): start the task if it
has no start time yet (the passed task object aliases the repository
entry), then run the first countdown tick against the computed end time. -/
def GUI.start_countdown (g : GUI) (task : Task) (now : Int) : GUI :=
  if task.start_time = none then
    GUI.countdownTick
      { g with helper := (g.helper.start_study_mode_task task.id now).1 }
      { task with start_time := some now } (now + (task.time_limit : Int) * 60) now
  else
    match task.start_time with
    | none => g
    | some st => GUI.countdownTick g task (st + (task.time_limit : Int) * 60) now

/-- The guard of `switch_mode` (lines 398-408): switching to normal is
blocked when the running study task exists, has been started, and its
elapsed minutes are still below its time limit. -/
def GUI.switchRefused (g : GUI) (now : Int) : Bool :=
  decide (g.current_mode = "normal") &&
    (match g.running_study_task_id with
     | none => false
     | some tid =>
       match findTask g.helper.tasks tid with
       | none => false
       | some task =>
         match task.start_time with
         | none => false
         | some st => decide (((now - st : Int) : ℚ) / 60 < (task.time_limit : ℚ)))

/-- `StudyHelperGUI.switch_mode` (lines 393-434): refuse and force the
selector back to study mode when the guard fires; entering study mode
adopts the first pending study task and starts its countdown; entering
normal mode clears the session state and leaves full-screen. -/
def GUI.switch_mode (g : GUI) (now : Int) : GUI :=
  if g.switchRefused now then
    { g with current_mode := "study_mode" }
  else if g.current_mode = "study_mode" then
    match (g.helper.get_pending_tasks).filter (fun t => t.study_mode = "study_mode") with
    | [] => { g with lock_label := "" }
    | task :: _ =>
      GUI.start_countdown
        { g with running_study_task_id := some task.id,
                 lock_label := "⚠️ 学霸模式运行中，无法关闭窗口" }
        task now
  else
    if g.is_fullscreen then
      GUI.exit_fullscreen { g with running_study_task_id := none,
                                   countdown_label := false,
                                   study_mode_status := "",
                                   lock_label := "" }
    else
      { g with running_study_task_id := none,
               countdown_label := false,
               study_mode_status := "",
               lock_label := "" }

/-- The delete branch of `on_task_select` for a study-mode task
(lines 847-857), after the user confirms the deletion. -/
def GUI.delete_study_task (g : GUI) (full_id : String) : GUI :=
  if g.is_fullscreen then
    GUI.exit_fullscreen { g with helper := (g.helper.delete_task full_id).1,
                                 running_study_task_id := none,
                                 study_mode_status := "",
                                 lock_label := "" }
  else
    { g with helper := (g.helper.delete_task full_id).1,
             running_study_task_id := none,
             study_mode_status := "",
             lock_label := "" }

/-- The `StudyHelperGUI.__init__` state (lines 322-362) before any task is
loaded. -/
def initialGUI : GUI :=
  { helper := { tasks := [], savedTasks := [] }
    current_mode := "normal"
    running_study_task_id := none
    original_geometry := "1400x750"
    geometry := "1400x750"
    is_fullscreen := false
    topmost := false
    lock_label := ""
    study_mode_status := ""
    countdown_label := false
    unlock_password := "123456"
    unlock_dialog_open := false
    dialog_inputs_enabled := false
    wrong_attempts := 0
    cooldown_pending := false
    destroyed := false }

/-- The repository operations that can touch the task list while the
application runs (the methods of `StudyHelper` that write tasks). -/
inductive HelperOp where
  | startTask (tid : String) (now : Int)
  | completeTask (tid : String) (now : Int)
  | recordClose (tid : String)
  | addTask (t : Task)
  | deleteTask (tid : String)
deriving Repr, DecidableEq

/-- Apply one repository operation to the store. -/
def StudyHelper.applyOp (h : StudyHelper) (op : HelperOp) : StudyHelper :=
  match op with
  | .startTask tid now => (h.start_study_mode_task tid now).1
  | .completeTask tid now => (h.complete_task tid now).1
  | .recordClose tid => (h.record_close_attempt tid).1
  | .addTask t => h.add_task t
  | .deleteTask tid => (h.delete_task tid).1

/-- A concrete study-mode task with a 30-minute limit, started at time 0
(Scenario A of the spec). -/
def demoTask : Task :=
  { id := "task_20240101120000_123", subject := "数学", content := "模拟考试",
    deadline := "2024-01-02", priority := 3, completed := false, created_at := 0,
    completed_at := none, study_mode := "study_mode", time_limit := 30,
    start_time := some 0, close_attempts := 0 }

/-- The GUI state with `demoTask` active in study mode. -/
def demoGUI : GUI :=
  { initialGUI with
    helper := { tasks := [demoTask], savedTasks := [demoTask] },
    current_mode := "study_mode",
    running_study_task_id := some demoTask.id }

/-- `demoGUI` with the unlock dialog open (the Locked state of the spec). -/
def demoLockedGUI : GUI :=
  { demoGUI with
    helper := { tasks := [{ demoTask with close_attempts := 3 }],
                savedTasks := [{ demoTask with close_attempts := 3 }] },
    is_fullscreen := true, topmost := true,
    geometry := fullscreenGeometry,
    lock_label := "⚠️ 强制全屏模式：完成任务或输入密码才能退出",
    unlock_dialog_open := true, dialog_inputs_enabled := true }

end StudyApp

namespace StudyApp

theorem markDone_completed (t : Task) (now : Int) :
    (t.markDone now).completed = true := by
  unfold Task.markDone
  split
  · rfl
  · rename_i h
    simpa using h

theorem markDone_of_completed (t : Task) (now : Int) (h : t.completed = true) :
    t.markDone now = t := by
  unfold Task.markDone
  rw [if_neg]
  simp [h]

theorem markDone_study_mode (t : Task) (now : Int) :
    (t.markDone now).study_mode = t.study_mode := by
  unfold Task.markDone
  split <;> rfl

theorem markDone_time_limit (t : Task) (now : Int) :
    (t.markDone now).time_limit = t.time_limit := by
  unfold Task.markDone
  split <;> rfl

theorem markDone_start_time (t : Task) (now : Int) :
    (t.markDone now).start_time = t.start_time := by
  unfold Task.markDone
  split <;> rfl

theorem markDone_id (t : Task) (now : Int) :
    (t.markDone now).id = t.id := by
  unfold Task.markDone
  split <;> rfl

theorem markDone_close_attempts (t : Task) (now : Int) :
    (t.markDone now).close_attempts = t.close_attempts := by
  unfold Task.markDone
  split <;> rfl

theorem complete_not_ok (t : Task) (now : Int) :
    (t.complete now).2 ≠ CompleteResult.ok → (t.complete now).1 = t := by
  unfold Task.complete
  split
  · split
    · intro _; rfl
    · split
      · intro _; rfl
      · intro h; exact absurd rfl h
  · intro h; exact absurd rfl h

theorem completeFirst_not_ok (tid : String) (now : Int) :
    ∀ tasks : List Task, (completeFirst tasks tid now).2 ≠ some CompleteResult.ok →
      (completeFirst tasks tid now).1 = tasks := by
  intro tasks
  induction tasks with
  | nil => intro _; rfl
  | cons t rest ih =>
    unfold completeFirst
    split
    · intro h
      show (t.complete now).1 :: rest = t :: rest
      rw [complete_not_ok t now (fun he => h (congrArg some he))]
    · intro h
      show t :: (completeFirst rest tid now).1 = t :: rest
      rw [ih h]

theorem complete_task_fail_frame (h : StudyHelper) (tid : String) (now : Int) :
    (h.complete_task tid now).2.1 = false → (h.complete_task tid now).1 = h := by
  unfold StudyHelper.complete_task
  split
  next ts r heq =>
    by_cases hc : r = CompleteResult.ok
    · subst hc
      rw [if_pos rfl]
      intro hfail
      exact absurd hfail (by simp)
    · rw [if_neg hc]
      intro _
      have h2 := completeFirst_not_ok tid now h.tasks (by rw [heq]; simp [hc])
      rw [heq] at h2
      have h3 : ts = h.tasks := h2
      show ({ h with tasks := ts } : StudyHelper) = h
      rw [h3]
  next x heq =>
    intro _
    rfl

/-- C1: for a started study-mode task with a positive time limit, the
`complete` operation succeeds (and forces `completed = true`) exactly when
the elapsed minutes reach the time limit; a premature call is refused with
the exact remaining time reported, the task untouched, and the
repository's `complete_task` leaves its task list (and saved file)
unchanged whenever it returns failure. -/
theorem complete_requires_elapsed_time (t : Task) (st now : Int) (hh : StudyHelper)
    (hm : t.study_mode = "study_mode") (hl : 0 < t.time_limit)
    (hs : t.start_time = some st) :
    ((t.complete now).2 = CompleteResult.ok ↔
      (t.time_limit : ℚ) ≤ ((now - st : Int) : ℚ) / 60)
    ∧ ((t.complete now).2 = CompleteResult.ok → (t.complete now).1.completed = true)
    ∧ (((now - st : Int) : ℚ) / 60 < (t.time_limit : ℚ) →
        (t.complete now).2 =
          CompleteResult.tooEarly ((t.time_limit : ℚ) - ((now - st : Int) : ℚ) / 60)
        ∧ (t.complete now).1 = t
        ∧ (t.complete now).1.completed = t.completed)
    ∧ ((hh.complete_task t.id now).2.1 = false → (hh.complete_task t.id now).1 = hh) := by
  have hc : t.complete now =
      (if ((now - st : Int) : ℚ) / 60 < (t.time_limit : ℚ) then
        (t, CompleteResult.tooEarly ((t.time_limit : ℚ) - ((now - st : Int) : ℚ) / 60))
      else (t.markDone now, CompleteResult.ok)) := by
    unfold Task.complete
    rw [if_pos ⟨hm, hl⟩, hs]
  by_cases hlt : ((now - st : Int) : ℚ) / 60 < (t.time_limit : ℚ)
  · rw [hc, if_pos hlt]
    refine ⟨?_, ?_, ?_, fun hf => complete_task_fail_frame hh t.id now hf⟩
    · exact iff_of_false (by simp) hlt.not_le
    · intro hcontra
      simp at hcontra
    · exact fun _ => ⟨rfl, rfl, rfl⟩
  · rw [hc, if_neg hlt]
    refine ⟨?_, ?_, ?_, fun hf => complete_task_fail_frame hh t.id now hf⟩
    · exact iff_of_true rfl (not_lt.mp hlt)
    · intro _
      exact markDone_completed t now
    · exact fun hlt2 => absurd hlt2 hlt

/-- Witness for `complete_requires_elapsed_time`: Scenario A, a 30-minute
task started at time 0 and completed at the 29-minute mark is refused with
exactly one minute remaining. -/
theorem complete_requires_elapsed_time_witness :
    (demoTask.study_mode = "study_mode" ∧ 0 < demoTask.time_limit
      ∧ demoTask.start_time = some 0)
    ∧ (((1740 - 0 : Int) : ℚ) / 60 < (demoTask.time_limit : ℚ) →
        (demoTask.complete 1740).2 =
          CompleteResult.tooEarly ((demoTask.time_limit : ℚ) - ((1740 - 0 : Int) : ℚ) / 60)
        ∧ (demoTask.complete 1740).1 = demoTask
        ∧ (demoTask.complete 1740).1.completed = demoTask.completed) :=
  ⟨⟨rfl, by decide, rfl⟩,
   (complete_requires_elapsed_time demoTask 0 1740
      { tasks := [demoTask], savedTasks := [demoTask] } rfl (by decide) rfl).2.2.1⟩

/-- C10: once a `complete` call has succeeded, any later `complete` call
succeeds again and leaves the task record (its `completed` flag and
`completed_at` timestamp included) unchanged. -/
theorem complete_idempotent_on_success (t : Task) (now1 now2 : Int)
    (h12 : now1 ≤ now2) (hok : (t.complete now1).2 = CompleteResult.ok) :
    ((t.complete now1).1.complete now2).2 = CompleteResult.ok
    ∧ ((t.complete now1).1.complete now2).1 = (t.complete now1).1 := by
  by_cases hg : t.study_mode = "study_mode" ∧ 0 < t.time_limit
  · rcases hst : t.start_time with _ | st
    · have hc1 : t.complete now1 = (t, CompleteResult.notStarted) := by
        unfold Task.complete
        rw [if_pos hg, hst]
      rw [hc1] at hok
      exact absurd hok (by simp)
    · have hstep : t.complete now1 =
          (if ((now1 - st : Int) : ℚ) / 60 < (t.time_limit : ℚ) then
            (t, CompleteResult.tooEarly
              ((t.time_limit : ℚ) - ((now1 - st : Int) : ℚ) / 60))
          else (t.markDone now1, CompleteResult.ok)) := by
        unfold Task.complete
        rw [if_pos hg, hst]
      by_cases hlt : ((now1 - st : Int) : ℚ) / 60 < (t.time_limit : ℚ)
      · have hc1 : t.complete now1 =
            (t, CompleteResult.tooEarly
              ((t.time_limit : ℚ) - ((now1 - st : Int) : ℚ) / 60)) := by
          rw [hstep, if_pos hlt]
        rw [hc1] at hok
        exact absurd hok (by simp)
      · have hc1 : t.complete now1 = (t.markDone now1, CompleteResult.ok) := by
          rw [hstep, if_neg hlt]
        have hmono : ((now1 - st : Int) : ℚ) / 60 ≤ ((now2 - st : Int) : ℚ) / 60 := by
          have hsub : ((now1 - st : Int) : ℚ) ≤ ((now2 - st : Int) : ℚ) := by
            exact_mod_cast sub_le_sub_right h12 st
          linarith
        have hle2 : ¬ ((now2 - st : Int) : ℚ) / 60 < (t.time_limit : ℚ) :=
          not_lt.mpr (le_trans (not_lt.mp hlt) hmono)
        have hstep2 : (t.markDone now1).complete now2 =
            (if ((now2 - st : Int) : ℚ) / 60 < (t.time_limit : ℚ) then
              (t.markDone now1, CompleteResult.tooEarly
                ((t.time_limit : ℚ) - ((now2 - st : Int) : ℚ) / 60))
            else ((t.markDone now1).markDone now2, CompleteResult.ok)) := by
          unfold Task.complete
          rw [markDone_study_mode, markDone_time_limit, markDone_start_time,
            if_pos hg, hst]
        have hm1 : (t.markDone now1).complete now2 =
            ((t.markDone now1).markDone now2, CompleteResult.ok) := by
          rw [hstep2, if_neg hle2]
        constructor
        · rw [hc1]
          show ((t.markDone now1).complete now2).2 = CompleteResult.ok
          rw [hm1]
        · rw [hc1]
          show ((t.markDone now1).complete now2).1 = t.markDone now1
          rw [hm1]
          exact markDone_of_completed _ now2 (markDone_completed t now1)
  · have hc1 : t.complete now1 = (t.markDone now1, CompleteResult.ok) := by
      unfold Task.complete
      rw [if_neg hg]
    have hm1 : (t.markDone now1).complete now2 =
        ((t.markDone now1).markDone now2, CompleteResult.ok) := by
      unfold Task.complete
      rw [markDone_study_mode, markDone_time_limit, if_neg hg]
    constructor
    · rw [hc1]
      show ((t.markDone now1).complete now2).2 = CompleteResult.ok
      rw [hm1]
    · rw [hc1]
      show ((t.markDone now1).complete now2).1 = t.markDone now1
      rw [hm1]
      exact markDone_of_completed _ now2 (markDone_completed t now1)

theorem demoTask_complete_ok : (demoTask.complete 1800).2 = CompleteResult.ok := by
  norm_num [Task.complete, demoTask]

/-- Witness for `complete_idempotent_on_success`: completing the demo task
at the 30-minute mark succeeds, and completing it again a minute later
succeeds without changing the record. -/
theorem complete_idempotent_on_success_witness :
    ((1800 : Int) ≤ 1860 ∧ (demoTask.complete 1800).2 = CompleteResult.ok)
    ∧ ((demoTask.complete 1800).1.complete 1860).2 = CompleteResult.ok
    ∧ ((demoTask.complete 1800).1.complete 1860).1 = (demoTask.complete 1800).1 :=
  ⟨⟨by decide, demoTask_complete_ok⟩,
   complete_idempotent_on_success demoTask 1800 1860 (by decide) demoTask_complete_ok⟩

theorem start_study_mode_of_some (t : Task) (now s : Int) (h : t.start_time = some s) :
    t.start_study_mode now = t := by
  unfold Task.start_study_mode
  rw [if_neg]
  intro hcond
  rw [h] at hcond
  exact Option.noConfusion hcond.2

theorem startFirst_all_started (tid : String) (now : Int) :
    ∀ tasks : List Task, (∀ u ∈ tasks, u.id = tid → u.start_time ≠ none) →
      startFirst tasks tid now = (tasks, false) := by
  intro tasks
  induction tasks with
  | nil => intro _; rfl
  | cons t rest ih =>
    intro hall
    unfold startFirst
    rw [if_neg, ih]
    · intro u hu hid
      exact hall u (List.mem_cons_of_mem t hu) hid
    · intro hcond
      exact hall t (List.mem_cons_self t rest) hcond.1 hcond.2.2

/-- C7: starting the study-mode timer is idempotent.  The first `start`
on an unstarted study-mode task records the start time; on any task whose
start time is already set, `start_study_mode` is a no-op (in particular a
second call changes nothing), and when no task with the id is still
unstarted the repository-level `start_study_mode_task` returns without
touching the task list or the saved file. -/
theorem start_study_mode_idempotent (t : Task) (tid : String) (now1 now2 : Int)
    (hh : StudyHelper)
    (hm : t.study_mode = "study_mode") (hs : t.start_time = none)
    (hall : ∀ u ∈ hh.tasks, u.id = tid → u.start_time ≠ none) :
    (t.start_study_mode now1).start_time = some now1
    ∧ (t.start_study_mode now1).start_study_mode now2 = t.start_study_mode now1
    ∧ (∀ (u : Task) (s : Int), u.start_time = some s →
        u.start_study_mode now2 = u ∧ (u.start_study_mode now2).start_time = some s)
    ∧ hh.start_study_mode_task tid now2 = (hh, false) := by
  have h1 : t.start_study_mode now1 = { t with start_time := some now1 } := by
    unfold Task.start_study_mode
    rw [if_pos ⟨hm, hs⟩]
  refine ⟨by rw [h1], ?_, ?_, ?_⟩
  · rw [h1, start_study_mode_of_some _ now2 now1 rfl]
  · intro u s hu
    refine ⟨start_study_mode_of_some u now2 s hu, ?_⟩
    rw [start_study_mode_of_some u now2 s hu]
    exact hu
  · unfold StudyHelper.start_study_mode_task
    rw [startFirst_all_started tid now2 hh.tasks hall]
    simp

/-- Witness for `start_study_mode_idempotent` on the demo task before it
is started. -/
theorem start_study_mode_idempotent_witness :
    (({ demoTask with start_time := none } : Task).study_mode = "study_mode"
      ∧ ({ demoTask with start_time := none } : Task).start_time = none
      ∧ (∀ u ∈ ({ tasks := [demoTask], savedTasks := [demoTask] } : StudyHelper).tasks,
          u.id = demoTask.id → u.start_time ≠ none))
    ∧ (({ demoTask with start_time := none } : Task).start_study_mode 0).start_time = some 0
    ∧ (({ demoTask with start_time := none } : Task).start_study_mode 0).start_study_mode 60
        = ({ demoTask with start_time := none } : Task).start_study_mode 0
    ∧ ({ tasks := [demoTask], savedTasks := [demoTask] } : StudyHelper).start_study_mode_task
        demoTask.id 60
        = (({ tasks := [demoTask], savedTasks := [demoTask] } : StudyHelper), false) :=
  ⟨⟨rfl, rfl, by decide⟩,
   (start_study_mode_idempotent ({ demoTask with start_time := none } : Task) demoTask.id 0 60
      { tasks := [demoTask], savedTasks := [demoTask] } rfl rfl (by decide)).1,
   (start_study_mode_idempotent ({ demoTask with start_time := none } : Task) demoTask.id 0 60
      { tasks := [demoTask], savedTasks := [demoTask] } rfl rfl (by decide)).2.1,
   (start_study_mode_idempotent ({ demoTask with start_time := none } : Task) demoTask.id 0 60
      { tasks := [demoTask], savedTasks := [demoTask] } rfl rfl (by decide)).2.2.2⟩

theorem start_id (t : Task) (now : Int) : (t.start_study_mode now).id = t.id := by
  unfold Task.start_study_mode
  split <;> rfl

theorem start_close (t : Task) (now : Int) :
    (t.start_study_mode now).close_attempts = t.close_attempts := by
  unfold Task.start_study_mode
  split <;> rfl

theorem complete_fst_id (t : Task) (now : Int) : (t.complete now).1.id = t.id := by
  unfold Task.complete
  split
  · split
    · rfl
    · split
      · rfl
      · exact markDone_id t now
  · exact markDone_id t now

theorem complete_fst_close (t : Task) (now : Int) :
    (t.complete now).1.close_attempts = t.close_attempts := by
  unfold Task.complete
  split
  · split
    · rfl
    · split
      · rfl
      · exact markDone_close_attempts t now
  · exact markDone_close_attempts t now

theorem startFirst_get? (tid : String) (now : Int) :
    ∀ (tasks : List Task) (i : Nat) (t : Task), tasks.get? i = some t →
      ∃ u, (startFirst tasks tid now).1.get? i = some u ∧
        (u = t ∨ u = t.start_study_mode now) := by
  intro tasks
  induction tasks with
  | nil => intro i t h; simp at h
  | cons a rest ih =>
    intro i t h
    unfold startFirst
    split
    · cases i with
      | zero =>
        rw [List.get?_cons_zero] at h
        injection h with h
        subst h
        exact ⟨a.start_study_mode now, rfl, Or.inr rfl⟩
      | succ j =>
        rw [List.get?_cons_succ] at h
        exact ⟨t, h, Or.inl rfl⟩
    · cases i with
      | zero =>
        rw [List.get?_cons_zero] at h
        injection h with h
        subst h
        exact ⟨a, rfl, Or.inl rfl⟩
      | succ j =>
        rw [List.get?_cons_succ] at h
        obtain ⟨u, hu, hor⟩ := ih j t h
        exact ⟨u, hu, hor⟩

theorem completeFirst_get? (tid : String) (now : Int) :
    ∀ (tasks : List Task) (i : Nat) (t : Task), tasks.get? i = some t →
      ∃ u, (completeFirst tasks tid now).1.get? i = some u ∧
        (u = t ∨ u = (t.complete now).1) := by
  intro tasks
  induction tasks with
  | nil => intro i t h; simp at h
  | cons a rest ih =>
    intro i t h
    unfold completeFirst
    split
    · cases i with
      | zero =>
        rw [List.get?_cons_zero] at h
        injection h with h
        subst h
        exact ⟨(a.complete now).1, rfl, Or.inr rfl⟩
      | succ j =>
        rw [List.get?_cons_succ] at h
        exact ⟨t, h, Or.inl rfl⟩
    · cases i with
      | zero =>
        rw [List.get?_cons_zero] at h
        injection h with h
        subst h
        exact ⟨a, rfl, Or.inl rfl⟩
      | succ j =>
        rw [List.get?_cons_succ] at h
        obtain ⟨u, hu, hor⟩ := ih j t h
        exact ⟨u, hu, hor⟩

theorem recordFirst_get? (tid : String) :
    ∀ (tasks : List Task) (i : Nat) (t : Task), tasks.get? i = some t →
      ∃ u, (recordFirst tasks tid).1.get? i = some u ∧
        (u = t ∨ u = t.record_close_attempt.1) := by
  intro tasks
  induction tasks with
  | nil => intro i t h; simp at h
  | cons a rest ih =>
    intro i t h
    unfold recordFirst
    split
    · cases i with
      | zero =>
        rw [List.get?_cons_zero] at h
        injection h with h
        subst h
        exact ⟨a.record_close_attempt.1, rfl, Or.inr rfl⟩
      | succ j =>
        rw [List.get?_cons_succ] at h
        exact ⟨t, h, Or.inl rfl⟩
    · cases i with
      | zero =>
        rw [List.get?_cons_zero] at h
        injection h with h
        subst h
        exact ⟨a, rfl, Or.inl rfl⟩
      | succ j =>
        rw [List.get?_cons_succ] at h
        obtain ⟨u, hu, hor⟩ := ih j t h
        exact ⟨u, hu, hor⟩

theorem get?_append_of_some {α : Type} (l l2 : List α) (i : Nat) (a : α)
    (h : l.get? i = some a) : (l ++ l2).get? i = some a := by
  obtain ⟨hlt, _⟩ := List.get?_eq_some.mp h
  rw [List.get?_append hlt]
  exact h

/-- C8: `close_attempts` is monotonically non-decreasing under every
repository operation other than deletion (each surviving position keeps
its task id and never loses close attempts); `record_close_attempt`
increments the counter by exactly one, returns the new count, and the
repository variant immediately persists the updated list to the saved
file whenever a task matched. -/
theorem close_attempts_monotone (h : StudyHelper) (op : HelperOp) (i : Nat)
    (t : Task) (tid2 : String)
    (hop : ∀ s, op ≠ HelperOp.deleteTask s) (hi : h.tasks.get? i = some t) :
    (∃ u, (h.applyOp op).tasks.get? i = some u ∧ u.id = t.id
      ∧ t.close_attempts ≤ u.close_attempts)
    ∧ t.record_close_attempt.2 = t.close_attempts + 1
    ∧ t.record_close_attempt.1.close_attempts = t.close_attempts + 1
    ∧ ((h.record_close_attempt tid2).2 ≠ 0 →
        (h.record_close_attempt tid2).1.savedTasks =
          (h.record_close_attempt tid2).1.tasks) := by
  refine ⟨?_, rfl, rfl, ?_⟩
  · cases op with
    | startTask tid now =>
      simp only [StudyHelper.applyOp]
      unfold StudyHelper.start_study_mode_task
      split
      · obtain ⟨u, hu, hor⟩ := startFirst_get? tid now h.tasks i t hi
        refine ⟨u, hu, ?_⟩
        rcases hor with rfl | rfl
        · exact ⟨rfl, le_refl _⟩
        · exact ⟨start_id t now, by rw [start_close]⟩
      · exact ⟨t, hi, rfl, le_refl _⟩
    | completeTask tid now =>
      simp only [StudyHelper.applyOp]
      unfold StudyHelper.complete_task
      obtain ⟨u, hu, hor⟩ := completeFirst_get? tid now h.tasks i t hi
      have huid : u.id = t.id ∧ t.close_attempts ≤ u.close_attempts := by
        rcases hor with rfl | rfl
        · exact ⟨rfl, le_refl _⟩
        · exact ⟨complete_fst_id t now, by rw [complete_fst_close]⟩
      split
      next ts r heq =>
        rw [heq] at hu
        by_cases hr : r = CompleteResult.ok
        · rw [if_pos hr]
          exact ⟨u, hu, huid⟩
        · rw [if_neg hr]
          exact ⟨u, hu, huid⟩
      next x heq =>
        exact ⟨t, hi, rfl, le_refl _⟩
    | recordClose tid =>
      simp only [StudyHelper.applyOp]
      unfold StudyHelper.record_close_attempt
      obtain ⟨u, hu, hor⟩ := recordFirst_get? tid h.tasks i t hi
      have huid : u.id = t.id ∧ t.close_attempts ≤ u.close_attempts := by
        rcases hor with rfl | rfl
        · exact ⟨rfl, le_refl _⟩
        · exact ⟨rfl, Nat.le_succ _⟩
      split
      next ts n heq =>
        rw [heq] at hu
        exact ⟨u, hu, huid⟩
      next x heq =>
        exact ⟨t, hi, rfl, le_refl _⟩
    | addTask t0 =>
      simp only [StudyHelper.applyOp]
      unfold StudyHelper.add_task
      exact ⟨t, get?_append_of_some h.tasks [t0] i t hi, rfl, le_refl _⟩
    | deleteTask s =>
      exact absurd rfl (hop s)
  · unfold StudyHelper.record_close_attempt
    split
    next ts n heq =>
      intro _
      rfl
    next x heq =>
      intro hn
      exact absurd rfl hn

/-- Witness for `close_attempts_monotone`: completing the demo task leaves
its close-attempt counter in place. -/
theorem close_attempts_monotone_witness :
    ((∀ s, HelperOp.completeTask demoTask.id 1800 ≠ HelperOp.deleteTask s)
      ∧ ({ tasks := [demoTask], savedTasks := [demoTask] } : StudyHelper).tasks.get? 0
          = some demoTask)
    ∧ (∃ u, (({ tasks := [demoTask], savedTasks := [demoTask] } : StudyHelper).applyOp
          (HelperOp.completeTask demoTask.id 1800)).tasks.get? 0 = some u
        ∧ u.id = demoTask.id ∧ demoTask.close_attempts ≤ u.close_attempts) :=
  ⟨⟨fun s => by simp, rfl⟩,
   (close_attempts_monotone { tasks := [demoTask], savedTasks := [demoTask] }
      (HelperOp.completeTask demoTask.id 1800) 0 demoTask demoTask.id
      (fun s => by simp) rfl).1⟩

theorem recordFirst_found (tid : String) :
    ∀ (tasks : List Task) (task : Task), findTask tasks tid = some task →
      (recordFirst tasks tid).2 = some (task.close_attempts + 1)
      ∧ findTask (recordFirst tasks tid).1 tid
          = some { task with close_attempts := task.close_attempts + 1 } := by
  intro tasks
  induction tasks with
  | nil => intro task h; exact Option.noConfusion h
  | cons a rest ih =>
    intro task h
    unfold findTask at h
    unfold recordFirst
    by_cases ha : a.id = tid
    · rw [if_pos ha] at h ⊢
      injection h with h
      subst h
      refine ⟨rfl, ?_⟩
      show findTask (a.record_close_attempt.1 :: rest) tid
          = some { a with close_attempts := a.close_attempts + 1 }
      unfold findTask
      rw [if_pos (show a.record_close_attempt.1.id = tid from ha)]
      rfl
    · rw [if_neg ha] at h ⊢
      obtain ⟨h1, h2⟩ := ih task h
      refine ⟨h1, ?_⟩
      show findTask (a :: (recordFirst rest tid).1) tid = _
      unfold findTask
      rw [if_neg ha]
      exact h2

theorem record_close_attempt_spec (h : StudyHelper) (tid : String) (task : Task)
    (ht : findTask h.tasks tid = some task) :
    (h.record_close_attempt tid).2 = task.close_attempts + 1
    ∧ findTask (h.record_close_attempt tid).1.tasks tid
        = some { task with close_attempts := task.close_attempts + 1 }
    ∧ (h.record_close_attempt tid).1.savedTasks = (h.record_close_attempt tid).1.tasks := by
  obtain ⟨h1, h2⟩ := recordFirst_found tid h.tasks task ht
  unfold StudyHelper.record_close_attempt
  rcases hr : recordFirst h.tasks tid with ⟨ts, r⟩
  rw [hr] at h1 h2
  have hr2 : r = some (task.close_attempts + 1) := h1
  subst hr2
  exact ⟨rfl, h2, rfl⟩

theorem show_unlock_dialog_running (g : GUI) :
    g.show_unlock_dialog.running_study_task_id = g.running_study_task_id := by
  unfold GUI.show_unlock_dialog
  split <;> rfl

theorem show_unlock_dialog_mode (g : GUI) :
    g.show_unlock_dialog.current_mode = g.current_mode := by
  unfold GUI.show_unlock_dialog
  split <;> rfl

theorem show_unlock_dialog_helper (g : GUI) :
    g.show_unlock_dialog.helper = g.helper := by
  unfold GUI.show_unlock_dialog
  split <;> rfl

theorem show_unlock_dialog_destroyed (g : GUI) :
    g.show_unlock_dialog.destroyed = g.destroyed := by
  unfold GUI.show_unlock_dialog
  split <;> rfl

theorem show_unlock_dialog_fullscreen (g : GUI) :
    g.show_unlock_dialog.is_fullscreen = g.is_fullscreen := by
  unfold GUI.show_unlock_dialog
  split <;> rfl

theorem enter_fullscreen_running (g : GUI) :
    g.enter_fullscreen.running_study_task_id = g.running_study_task_id := by
  unfold GUI.enter_fullscreen
  rw [show_unlock_dialog_running]

theorem enter_fullscreen_mode (g : GUI) :
    g.enter_fullscreen.current_mode = g.current_mode := by
  unfold GUI.enter_fullscreen
  rw [show_unlock_dialog_mode]

theorem enter_fullscreen_helper (g : GUI) :
    g.enter_fullscreen.helper = g.helper := by
  unfold GUI.enter_fullscreen
  rw [show_unlock_dialog_helper]

theorem enter_fullscreen_destroyed (g : GUI) :
    g.enter_fullscreen.destroyed = g.destroyed := by
  unfold GUI.enter_fullscreen
  rw [show_unlock_dialog_destroyed]

theorem enter_fullscreen_fullscreen (g : GUI) :
    g.enter_fullscreen.is_fullscreen = true := by
  unfold GUI.enter_fullscreen
  rw [show_unlock_dialog_fullscreen]

theorem handle_close_study (g : GUI) (tid : String) (cq : Bool)
    (hr : g.running_study_task_id = some tid) (hm : g.current_mode = "study_mode") :
    g.handle_close cq =
      (if (g.helper.record_close_attempt tid).2 ≤ 1 then
        ({ g with helper := (g.helper.record_close_attempt tid).1 },
         CloseOutcome.vetoNotice)
      else if 3 ≤ (g.helper.record_close_attempt tid).2 then
        (GUI.enter_fullscreen { g with helper := (g.helper.record_close_attempt tid).1 },
         CloseOutcome.vetoWarning (g.helper.record_close_attempt tid).2)
      else
        ({ g with helper := (g.helper.record_close_attempt tid).1 },
         CloseOutcome.vetoWarning (g.helper.record_close_attempt tid).2)) := by
  unfold GUI.handle_close
  rw [hr]
  simp [hm]

theorem handle_close_step (g : GUI) (tid : String) (task : Task) (cq : Bool)
    (hr : g.running_study_task_id = some tid)
    (hm : g.current_mode = "study_mode")
    (ht : findTask g.helper.tasks tid = some task) :
    (g.handle_close cq).1.running_study_task_id = some tid
    ∧ (g.handle_close cq).1.current_mode = "study_mode"
    ∧ findTask (g.handle_close cq).1.helper.tasks tid
        = some { task with close_attempts := task.close_attempts + 1 }
    ∧ (g.handle_close cq).1.destroyed = g.destroyed
    ∧ (g.handle_close cq).1.is_fullscreen
        = (decide (3 ≤ task.close_attempts + 1) || g.is_fullscreen)
    ∧ (task.close_attempts + 1 < 3 →
        (g.handle_close cq).1 = { g with helper := (g.helper.record_close_attempt tid).1 }
        ∧ ((g.handle_close cq).2 = CloseOutcome.vetoNotice
            ∨ (g.handle_close cq).2
              = CloseOutcome.vetoWarning (task.close_attempts + 1))) := by
  obtain ⟨hn, hft, _⟩ := record_close_attempt_spec g.helper tid task ht
  have hE := handle_close_study g tid cq hr hm
  rw [hn] at hE
  by_cases h1 : task.close_attempts + 1 ≤ 1
  · rw [if_pos h1] at hE
    rw [hE]
    have h3 : ¬ (3 ≤ task.close_attempts + 1) := by omega
    refine ⟨hr, hm, hft, rfl, by simp [h3], fun _ => ⟨rfl, Or.inl rfl⟩⟩
  · rw [if_neg h1] at hE
    by_cases h3 : 3 ≤ task.close_attempts + 1
    · rw [if_pos h3] at hE
      rw [hE]
      refine ⟨?_, ?_, ?_, ?_, ?_, ?_⟩
      · rw [enter_fullscreen_running]
        exact hr
      · rw [enter_fullscreen_mode]
        exact hm
      · rw [enter_fullscreen_helper]
        exact hft
      · rw [enter_fullscreen_destroyed]
      · rw [enter_fullscreen_fullscreen]
        simp [h3]
      · intro hlt
        omega
    · rw [if_neg h3] at hE
      rw [hE]
      refine ⟨hr, hm, hft, rfl, by simp [h3], fun _ => ⟨rfl, Or.inr rfl⟩⟩

/-- C2: with an active study-mode task, a close request locks the window
into full-screen exactly when the incremented close-attempt count reaches
3; below 3 only a warning is raised, the window survives, and nothing but
the repository counter changes.  Three consecutive close requests from a
zero count lock the window with `close_attempts` exactly 3. -/
theorem close_attempts_drive_lock (g : GUI) (tid : String) (task : Task) (cq : Bool)
    (hr : g.running_study_task_id = some tid)
    (hm : g.current_mode = "study_mode")
    (ht : findTask g.helper.tasks tid = some task)
    (hf : g.is_fullscreen = false) :
    ((g.handle_close cq).1.is_fullscreen = true ↔ 3 ≤ task.close_attempts + 1)
    ∧ (g.handle_close cq).1.destroyed = g.destroyed
    ∧ (task.close_attempts + 1 < 3 →
        (g.handle_close cq).1 = { g with helper := (g.helper.record_close_attempt tid).1 }
        ∧ (g.handle_close cq).1.is_fullscreen = false
        ∧ ((g.handle_close cq).2 = CloseOutcome.vetoNotice
            ∨ (g.handle_close cq).2
              = CloseOutcome.vetoWarning (task.close_attempts + 1)))
    ∧ (task.close_attempts = 0 →
        (((g.handle_close cq).1.handle_close cq).1.handle_close cq).1.is_fullscreen = true
        ∧ findTask
            ((((g.handle_close cq).1.handle_close cq).1.handle_close cq).1.helper.tasks)
            tid = some { task with close_attempts := 3 }) := by
  obtain ⟨s1, s2, s3, s4, s5, s6⟩ := handle_close_step g tid task cq hr hm ht
  refine ⟨?_, s4, ?_, ?_⟩
  · rw [s5, hf]
    simp
  · intro hlt
    obtain ⟨he, hout⟩ := s6 hlt
    refine ⟨he, ?_, hout⟩
    rw [he]
    exact hf
  · intro h0
    obtain ⟨s1', s2', s3', _, _, _⟩ :=
      handle_close_step (g.handle_close cq).1 tid
        { task with close_attempts := task.close_attempts + 1 } cq s1 s2 s3
    obtain ⟨_, _, u3, _, u5, _⟩ :=
      handle_close_step ((g.handle_close cq).1.handle_close cq).1 tid _ cq s1' s2' s3'
    constructor
    · rw [u5]
      simp [h0]
    · rw [u3]
      simp [h0]

/-- Witness for `close_attempts_drive_lock`: three close requests on the
demo session lock the window with exactly three recorded attempts. -/
theorem close_attempts_drive_lock_witness :
    (demoGUI.running_study_task_id = some demoTask.id
      ∧ demoGUI.current_mode = "study_mode"
      ∧ findTask demoGUI.helper.tasks demoTask.id = some demoTask
      ∧ demoGUI.is_fullscreen = false ∧ demoTask.close_attempts = 0)
    ∧ ((((demoGUI.handle_close false).1.handle_close false).1.handle_close
          false).1.is_fullscreen = true
        ∧ findTask
            ((((demoGUI.handle_close false).1.handle_close false).1.handle_close
              false).1.helper.tasks)
            demoTask.id = some { demoTask with close_attempts := 3 }) :=
  ⟨⟨rfl, rfl, by decide, rfl, rfl⟩,
   (close_attempts_drive_lock demoGUI demoTask.id demoTask false rfl rfl
      (by decide) rfl).2.2.2 rfl⟩

/-- C5 fails on the code: `enter_fullscreen` re-captures
`root.geometry()` on every entry.  Starting from the demo session, three
close requests lock the window and correctly capture the windowed
geometry, but a fourth close request while still locked overwrites the
captured value with the full-screen geometry before any unlock restored
it. -/
theorem relock_overwrites_captured_geometry :
    ((((demoGUI.handle_close false).1.handle_close false).1.handle_close
        false).1.original_geometry = "1400x750")
    ∧ ((((demoGUI.handle_close false).1.handle_close false).1.handle_close
        false).1.is_fullscreen = true)
    ∧ (((((demoGUI.handle_close false).1.handle_close false).1.handle_close
        false).1.handle_close false).1.is_fullscreen = true)
    ∧ (((((demoGUI.handle_close false).1.handle_close false).1.handle_close
        false).1.handle_close false).1.original_geometry = fullscreenGeometry)
    ∧ fullscreenGeometry ≠ "1400x750" := by
  refine ⟨?_, ?_, ?_, ?_, ?_⟩ <;> decide

/-- C3 as originally stated fails on the code: after the third wrong
submission locks the demo dialog out (counter 3, widgets disabled,
cool-down pending), a Return-key submission made before the cool-down
elapses is not refused — `check_password` runs again on the stale wrong
secret still held by the disabled entry, advancing the failure counter
from 3 to 4 and producing another lock-out instead of a refusal. -/
theorem submission_during_cooldown_not_refused :
    ((((demoLockedGUI.submitUnlock "000000").1.submitUnlock "000000").1.submitUnlock
        "000000").1.wrong_attempts = 3)
    ∧ ((((demoLockedGUI.submitUnlock "000000").1.submitUnlock "000000").1.submitUnlock
        "000000").1.dialog_inputs_enabled = false)
    ∧ ((((demoLockedGUI.submitUnlock "000000").1.submitUnlock "000000").1.submitUnlock
        "000000").1.cooldown_pending = true)
    ∧ (((((demoLockedGUI.submitUnlock "000000").1.submitUnlock "000000").1.submitUnlock
        "000000").1.pressReturn "000000").1.wrong_attempts = 4)
    ∧ (((((demoLockedGUI.submitUnlock "000000").1.submitUnlock "000000").1.submitUnlock
        "000000").1.pressReturn "000000").2 = UnlockResult.lockedOut 5000)
    ∧ (((((demoLockedGUI.submitUnlock "000000").1.submitUnlock "000000").1.submitUnlock
        "000000").1.pressReturn "000000").2 ≠ UnlockResult.refused) := by
  refine ⟨?_, ?_, ?_, ?_, ?_, ?_⟩ <;> decide

/-- C3, amended: the third consecutive wrong secret locks the dialog out
with the 5000 ms cool-down, changing only the failure counter, the
widget state and the pending timer (so the full-screen lock is
retained); no submission can be delivered through the disabled
entry/button widgets before the cool-down elapses, but the dialog's
Return binding stays live: a Return press during the cool-down re-runs
the check on the stale wrong secret, advancing the failure counter past
3 while remaining locked out (and scheduling another reset); when the
cool-down expires the failure counter is reset to 0 and the widgets
re-enabled, again leaving everything else (the lock included) in
place. -/
theorem unlock_lockout_cooldown (g : GUI) (s s2 : String)
    (hd : g.unlock_dialog_open = true) (he : g.dialog_inputs_enabled = true)
    (hw : g.wrong_attempts = 0) (hs : s ≠ g.unlock_password) :
    (g.submitUnlock s).2 = UnlockResult.rejected 2
    ∧ ((g.submitUnlock s).1.submitUnlock s).2 = UnlockResult.rejected 1
    ∧ ((g.submitUnlock s).1.submitUnlock s).1.submitUnlock s
        = ({ g with
              wrong_attempts := 3,
              dialog_inputs_enabled := false,
              cooldown_pending := true }, UnlockResult.lockedOut 5000)
    ∧ ({ g with
          wrong_attempts := 3,
          dialog_inputs_enabled := false,
          cooldown_pending := true } : GUI).submitUnlock s2
        = ({ g with
              wrong_attempts := 3,
              dialog_inputs_enabled := false,
              cooldown_pending := true }, UnlockResult.refused)
    ∧ ({ g with
          wrong_attempts := 3,
          dialog_inputs_enabled := false,
          cooldown_pending := true } : GUI).pressReturn s
        = ({ g with
              wrong_attempts := 4,
              dialog_inputs_enabled := false,
              cooldown_pending := true }, UnlockResult.lockedOut 5000)
    ∧ ({ g with
          wrong_attempts := 3,
          dialog_inputs_enabled := false,
          cooldown_pending := true } : GUI).reset_unlock_dialog
        = { g with
            wrong_attempts := 0,
            dialog_inputs_enabled := true,
            cooldown_pending := false }
    ∧ (g.submitUnlock s).1.is_fullscreen = g.is_fullscreen
    ∧ ((g.submitUnlock s).1.submitUnlock s).1.is_fullscreen = g.is_fullscreen := by
  have hE1 : g.submitUnlock s
      = (({ g with wrong_attempts := 1 } : GUI), UnlockResult.rejected 2) := by
    unfold GUI.submitUnlock GUI.check_password
    rw [if_pos ⟨hd, he⟩, if_neg hs, hw]
    rfl
  have hF1 : (g.submitUnlock s).1 = ({ g with wrong_attempts := 1 } : GUI) := by
    rw [hE1]
  have hE2 : (({ g with wrong_attempts := 1 } : GUI)).submitUnlock s
      = (({ g with wrong_attempts := 2 } : GUI), UnlockResult.rejected 1) := by
    unfold GUI.submitUnlock GUI.check_password
    rw [if_pos ⟨(show ({ g with wrong_attempts := 1 } : GUI).unlock_dialog_open = true from hd),
        (show ({ g with wrong_attempts := 1 } : GUI).dialog_inputs_enabled = true from he)⟩,
      if_neg (show s ≠ ({ g with wrong_attempts := 1 } : GUI).unlock_password from hs)]
    rfl
  have hF2 : ((g.submitUnlock s).1.submitUnlock s).1
      = ({ g with wrong_attempts := 2 } : GUI) := by
    rw [hF1, hE2]
  have hE3 : (({ g with wrong_attempts := 2 } : GUI)).submitUnlock s
      = (({ g with
            wrong_attempts := 3,
            dialog_inputs_enabled := false,
            cooldown_pending := true } : GUI), UnlockResult.lockedOut 5000) := by
    unfold GUI.submitUnlock GUI.check_password
    rw [if_pos ⟨(show ({ g with wrong_attempts := 2 } : GUI).unlock_dialog_open = true from hd),
        (show ({ g with wrong_attempts := 2 } : GUI).dialog_inputs_enabled = true from he)⟩,
      if_neg (show s ≠ ({ g with wrong_attempts := 2 } : GUI).unlock_password from hs)]
    rfl
  refine ⟨by rw [hE1], by rw [hF1, hE2], by rw [hF2, hE3], ?_, ?_, ?_, by rw [hF1],
    by rw [hF2]⟩
  · unfold GUI.submitUnlock
    rw [if_neg]
    intro hcontra
    exact Bool.noConfusion hcontra.2
  · unfold GUI.pressReturn GUI.check_password
    rw [if_pos (show ({ g with
          wrong_attempts := 3,
          dialog_inputs_enabled := false,
          cooldown_pending := true } : GUI).unlock_dialog_open = true from hd),
      if_neg (show s ≠ ({ g with
          wrong_attempts := 3,
          dialog_inputs_enabled := false,
          cooldown_pending := true } : GUI).unlock_password from hs)]
    rfl
  · unfold GUI.reset_unlock_dialog
    rw [if_pos (show ({ g with
        wrong_attempts := 3,
        dialog_inputs_enabled := false,
        cooldown_pending := true } : GUI).unlock_dialog_open = true from hd)]

/-- Witness for `unlock_lockout_cooldown` on the demo locked session. -/
theorem unlock_lockout_cooldown_witness :
    (demoLockedGUI.unlock_dialog_open = true
      ∧ demoLockedGUI.dialog_inputs_enabled = true
      ∧ demoLockedGUI.wrong_attempts = 0
      ∧ "000000" ≠ demoLockedGUI.unlock_password)
    ∧ ((demoLockedGUI.submitUnlock "000000").1.submitUnlock "000000").1.submitUnlock "000000"
        = ({ demoLockedGUI with
              wrong_attempts := 3,
              dialog_inputs_enabled := false,
              cooldown_pending := true }, UnlockResult.lockedOut 5000)
    ∧ ({ demoLockedGUI with
          wrong_attempts := 3,
          dialog_inputs_enabled := false,
          cooldown_pending := true } : GUI).submitUnlock "123456"
        = ({ demoLockedGUI with
              wrong_attempts := 3,
              dialog_inputs_enabled := false,
              cooldown_pending := true }, UnlockResult.refused)
    ∧ ({ demoLockedGUI with
          wrong_attempts := 3,
          dialog_inputs_enabled := false,
          cooldown_pending := true } : GUI).pressReturn "000000"
        = ({ demoLockedGUI with
              wrong_attempts := 4,
              dialog_inputs_enabled := false,
              cooldown_pending := true }, UnlockResult.lockedOut 5000)
    ∧ ({ demoLockedGUI with
          wrong_attempts := 3,
          dialog_inputs_enabled := false,
          cooldown_pending := true } : GUI).reset_unlock_dialog
        = { demoLockedGUI with
            wrong_attempts := 0,
            dialog_inputs_enabled := true,
            cooldown_pending := false } :=
  ⟨⟨rfl, rfl, rfl, by decide⟩,
   (unlock_lockout_cooldown demoLockedGUI "000000" "123456" rfl rfl rfl (by decide)).2.2.1,
   (unlock_lockout_cooldown demoLockedGUI "000000" "123456" rfl rfl rfl (by decide)).2.2.2.1,
   (unlock_lockout_cooldown demoLockedGUI "000000" "123456" rfl rfl rfl (by decide)).2.2.2.2.1,
   (unlock_lockout_cooldown demoLockedGUI "000000" "123456" rfl rfl rfl
      (by decide)).2.2.2.2.2.1⟩

/-- C6: submitting the correct secret is accepted and performs exactly
`exit_fullscreen`: full-screen and topmost cleared, geometry restored to
the captured value, dialog closed, and the task repository (hence every
task's start time and elapsed time) untouched. -/
theorem correct_secret_unlocks (g : GUI)
    (hd : g.unlock_dialog_open = true) (he : g.dialog_inputs_enabled = true) :
    g.submitUnlock g.unlock_password = (g.exit_fullscreen, UnlockResult.accepted)
    ∧ g.exit_fullscreen.is_fullscreen = false
    ∧ g.exit_fullscreen.topmost = false
    ∧ g.exit_fullscreen.geometry = g.original_geometry
    ∧ g.exit_fullscreen.unlock_dialog_open = false
    ∧ g.exit_fullscreen.helper = g.helper
    ∧ (∀ i : Nat, (g.exit_fullscreen.helper.tasks.get? i).map Task.start_time
        = (g.helper.tasks.get? i).map Task.start_time) := by
  refine ⟨?_, rfl, rfl, rfl, rfl, rfl, fun i => rfl⟩
  unfold GUI.submitUnlock GUI.check_password
  rw [if_pos ⟨hd, he⟩, if_pos rfl]

/-- Witness for `correct_secret_unlocks` on the demo locked session. -/
theorem correct_secret_unlocks_witness :
    (demoLockedGUI.unlock_dialog_open = true
      ∧ demoLockedGUI.dialog_inputs_enabled = true)
    ∧ demoLockedGUI.submitUnlock demoLockedGUI.unlock_password
        = (demoLockedGUI.exit_fullscreen, UnlockResult.accepted)
    ∧ demoLockedGUI.exit_fullscreen.is_fullscreen = false
    ∧ demoLockedGUI.exit_fullscreen.geometry = demoLockedGUI.original_geometry
    ∧ demoLockedGUI.exit_fullscreen.helper = demoLockedGUI.helper :=
  ⟨⟨rfl, rfl⟩,
   (correct_secret_unlocks demoLockedGUI rfl rfl).1,
   (correct_secret_unlocks demoLockedGUI rfl rfl).2.1,
   (correct_secret_unlocks demoLockedGUI rfl rfl).2.2.2.1,
   (correct_secret_unlocks demoLockedGUI rfl rfl).2.2.2.2.2.1⟩

theorem switchRefused_true_iff (g : GUI) (now : Int)
    (hm : g.current_mode = "normal") :
    g.switchRefused now = true ↔
      ∃ tid task st, g.running_study_task_id = some tid
        ∧ findTask g.helper.tasks tid = some task
        ∧ task.start_time = some st
        ∧ ((now - st : Int) : ℚ) / 60 < (task.time_limit : ℚ) := by
  unfold GUI.switchRefused
  rw [hm]
  rcases hr : g.running_study_task_id with _ | tid
  · simp
  · rcases ht : findTask g.helper.tasks tid with _ | task
    · simp [ht]
    · rcases hst : task.start_time with _ | st
      · simp [ht, hst]
      · simp [ht, hst]

/-- C4: with the selector moved to normal mode, the switch is refused (the
mode is forced back to study mode with nothing else changed) exactly when
the running study task exists, has a start time, and its elapsed minutes
are below its limit; whenever the switch goes through, the session state
(active task id, countdown display, status and lock labels, full-screen)
is cleared. -/
theorem switch_to_normal_guard (g : GUI) (now : Int)
    (hm : g.current_mode = "normal") :
    ((g.switch_mode now).current_mode = "study_mode" ↔
      ∃ tid task st, g.running_study_task_id = some tid
        ∧ findTask g.helper.tasks tid = some task
        ∧ task.start_time = some st
        ∧ ((now - st : Int) : ℚ) / 60 < (task.time_limit : ℚ))
    ∧ ((g.switch_mode now).current_mode = "study_mode" →
        g.switch_mode now = { g with current_mode := "study_mode" })
    ∧ ((g.switch_mode now).current_mode = "normal" →
        (g.switch_mode now).running_study_task_id = none
        ∧ (g.switch_mode now).study_mode_status = ""
        ∧ (g.switch_mode now).lock_label = ""
        ∧ (g.switch_mode now).countdown_label = false
        ∧ (g.switch_mode now).is_fullscreen = false) := by
  by_cases hb : g.switchRefused now = true
  · have hsw : g.switch_mode now = { g with current_mode := "study_mode" } := by
      unfold GUI.switch_mode
      rw [if_pos hb]
    refine ⟨?_, fun _ => hsw, ?_⟩
    · rw [hsw]
      exact iff_of_true rfl ((switchRefused_true_iff g now hm).mp hb)
    · intro hcontra
      rw [hsw] at hcontra
      have hcd : ("study_mode" : String) = "normal" := hcontra
      exact absurd hcd (by decide)
  · have hb' : g.switchRefused now = false := by
      simpa using hb
    have hswA : g.is_fullscreen = true →
        g.switch_mode now = GUI.exit_fullscreen
          { g with running_study_task_id := none, countdown_label := false,
                   study_mode_status := "", lock_label := "" } := by
      intro hfs
      simp [GUI.switch_mode, hb', hm, hfs]
    have hswB : g.is_fullscreen = false →
        g.switch_mode now =
          { g with running_study_task_id := none, countdown_label := false,
                   study_mode_status := "", lock_label := "" } := by
      intro hfs
      simp [GUI.switch_mode, hb', hm, hfs]
    have hmode : (g.switch_mode now).current_mode = "normal" := by
      cases hfs : g.is_fullscreen
      · rw [hswB hfs]
        exact hm
      · rw [hswA hfs]
        exact hm
    refine ⟨?_, ?_, ?_⟩
    · refine iff_of_false ?_ ?_
      · intro hcontra
        exact absurd (hmode.symm.trans hcontra) (by decide)
      · intro hex
        exact hb ((switchRefused_true_iff g now hm).mpr hex)
    · intro hcontra
      exact absurd (hmode.symm.trans hcontra) (by decide)
    · intro _
      cases hfs : g.is_fullscreen
      · rw [hswB hfs]
        exact ⟨rfl, rfl, rfl, rfl, hfs⟩
      · rw [hswA hfs]
        exact ⟨rfl, rfl, rfl, rfl, rfl⟩

/-- Witness for `switch_to_normal_guard`: one minute into the demo task
the switch back to normal mode is refused. -/
theorem switch_to_normal_guard_witness :
    (({ demoGUI with current_mode := "normal" } : GUI).current_mode = "normal")
    ∧ ((({ demoGUI with current_mode := "normal" } : GUI).switch_mode 60).current_mode
          = "study_mode" ↔
        ∃ tid task st,
          ({ demoGUI with current_mode := "normal" } : GUI).running_study_task_id = some tid
          ∧ findTask ({ demoGUI with current_mode := "normal" } : GUI).helper.tasks tid
              = some task
          ∧ task.start_time = some st
          ∧ ((60 - st : Int) : ℚ) / 60 < (task.time_limit : ℚ)) :=
  ⟨rfl, (switch_to_normal_guard ({ demoGUI with current_mode := "normal" } : GUI) 60 rfl).1⟩

theorem findTask_mem (tid : String) :
    ∀ (tasks : List Task) (task : Task), findTask tasks tid = some task →
      task ∈ tasks ∧ task.id = tid := by
  intro tasks
  induction tasks with
  | nil => intro task h; exact Option.noConfusion h
  | cons a rest ih =>
    intro task h
    unfold findTask at h
    by_cases ha : a.id = tid
    · rw [if_pos ha] at h
      injection h with h
      subst h
      exact ⟨List.mem_cons_self _ _, ha⟩
    · rw [if_neg ha] at h
      obtain ⟨h1, h2⟩ := ih task h
      exact ⟨List.mem_cons_of_mem a h1, h2⟩

theorem length_filter_lt_of_mem (p : Task → Bool) :
    ∀ (l : List Task) (x : Task), x ∈ l → p x = false →
      (l.filter p).length < l.length := by
  intro l
  induction l with
  | nil => intro x hx _; simp at hx
  | cons a rest ih =>
    intro x hx hpx
    rcases List.mem_cons.mp hx with rfl | hx'
    · rw [List.filter_cons, if_neg (by simp [hpx])]
      exact Nat.lt_succ_of_le (List.length_filter_le p rest)
    · rw [List.filter_cons]
      split
      · simpa using Nat.succ_lt_succ (ih x hx' hpx)
      · exact Nat.lt_trans (ih x hx' hpx) (Nat.lt_succ_self _)

/-- C9: deleting the running task while the session is locked resets the
session (active id, status and lock labels cleared), leaves forced
full-screen, and removes the task from both the in-memory list and the
saved file without writing any record for it — every surviving task is one
of the original task records, so no `completed` flag is touched. -/
theorem delete_active_task_resets (g : GUI) (tid : String) (task : Task)
    (hlock : g.is_fullscreen = true)
    (ht : findTask g.helper.tasks tid = some task) :
    (g.delete_study_task tid).running_study_task_id = none
    ∧ (g.delete_study_task tid).study_mode_status = ""
    ∧ (g.delete_study_task tid).lock_label = ""
    ∧ (g.delete_study_task tid).is_fullscreen = false
    ∧ (∀ u ∈ (g.delete_study_task tid).helper.tasks, u.id ≠ tid)
    ∧ (∀ u ∈ (g.delete_study_task tid).helper.savedTasks, u.id ≠ tid)
    ∧ (∀ u ∈ (g.delete_study_task tid).helper.tasks, u ∈ g.helper.tasks) := by
  obtain ⟨hmem, hid⟩ := findTask_mem tid g.helper.tasks task ht
  have hdel : (g.helper.delete_task tid).1 =
      ({ tasks := g.helper.tasks.filter (fun t => t.id ≠ tid),
         savedTasks := g.helper.tasks.filter (fun t => t.id ≠ tid) } : StudyHelper) := by
    unfold StudyHelper.delete_task
    rw [if_pos (length_filter_lt_of_mem _ g.helper.tasks task hmem (by simp [hid]))]
  have hE : g.delete_study_task tid = GUI.exit_fullscreen
      { g with helper := (g.helper.delete_task tid).1,
               running_study_task_id := none,
               study_mode_status := "", lock_label := "" } := by
    unfold GUI.delete_study_task
    rw [if_pos hlock]
  rw [hE, hdel]
  refine ⟨rfl, rfl, rfl, rfl, ?_, ?_, ?_⟩
  · intro u hu
    simpa using List.of_mem_filter hu
  · intro u hu
    simpa using List.of_mem_filter hu
  · intro u hu
    exact List.mem_of_mem_filter hu

/-- Witness for `delete_active_task_resets`: deleting the demo task while
locked. -/
theorem delete_active_task_resets_witness :
    (demoLockedGUI.is_fullscreen = true
      ∧ findTask demoLockedGUI.helper.tasks demoTask.id
          = some { demoTask with close_attempts := 3 })
    ∧ (demoLockedGUI.delete_study_task demoTask.id).running_study_task_id = none
    ∧ (demoLockedGUI.delete_study_task demoTask.id).is_fullscreen = false
    ∧ (∀ u ∈ (demoLockedGUI.delete_study_task demoTask.id).helper.tasks,
        u.id ≠ demoTask.id) :=
  ⟨⟨rfl, by decide⟩,
   (delete_active_task_resets demoLockedGUI demoTask.id
      { demoTask with close_attempts := 3 } rfl (by decide)).1,
   (delete_active_task_resets demoLockedGUI demoTask.id
      { demoTask with close_attempts := 3 } rfl (by decide)).2.2.2.1,
   (delete_active_task_resets demoLockedGUI demoTask.id
      { demoTask with close_attempts := 3 } rfl (by decide)).2.2.2.2.1⟩

end StudyApp
